import Mathlib

/-
  Shallow embedding of the fitness-tracker module (homework.py).
  Numeric values are modelled by the rationals, with Python runtime
  exceptions modelled explicitly by an error type: every division whose
  divisor can be zero at runtime is guarded, returning the error the
  interpreter would raise.
-/

namespace FitnessTracker

/-- Runtime errors the module can raise: the dict lookup failure re-raised
by read_package (KeyError), a constructor-arity mismatch (TypeError),
division by zero (ZeroDivisionError), and the base-class calorie method
(NotImplementedError). -/
inductive PyError where
  | keyError (msg : String)
  | typeError
  | zeroDivisionError
  | notImplementedError (msg : String)
deriving DecidableEq

/-- The InfoMessage dataclass: a summary record of one workout. -/
structure InfoMessage where
  training_type : String
  duration : ℚ
  distance : ℚ
  speed : ℚ
  calories : ℚ
deriving DecidableEq

/-- Round a rational to the nearest integer, ties to even: the rounding
Python applies when formatting with three fixed decimal places. -/
def roundHalfEven (q : ℚ) : ℤ :=
  let f : ℤ := ⌊q⌋
  let r : ℚ := q - (f : ℚ)
  if r < 1 / 2 then f
  else if 1 / 2 < r then f + 1
  else if f % 2 = 0 then f else f + 1

/-- One decimal digit as a character. -/
def digitChar (n : ℕ) : Char := Char.ofNat (48 + n)

/-- Render a natural number below 1000 as exactly three digit characters. -/
def frac3String (n : ℕ) : String :=
  String.mk [digitChar (n / 100), digitChar (n / 10 % 10), digitChar (n % 10)]

/-- Fixed-point rendering with three decimal places, the model of the
.3f conversion used in the MESSAGE template. -/
def formatFixed3 (q : ℚ) : String :=
  let n : ℤ := roundHalfEven (q * 1000)
  let sign : String := if n < 0 then "-" else ""
  let m : ℕ := n.natAbs
  sign ++ toString (m / 1000) ++ "." ++ frac3String (m % 1000)

/-- InfoMessage.get_message: instantiate the fixed MESSAGE template with
the record fields, each numeric field rendered to three decimals. -/
def InfoMessage.get_message (m : InfoMessage) : String :=
  "Тип тренировки: " ++ m.training_type ++ "; Длительность: "
    ++ formatFixed3 m.duration ++ " ч.; Дистанция: "
    ++ formatFixed3 m.distance ++ " км; Ср. скорость: "
    ++ formatFixed3 m.speed ++ " км/ч; Потрачено ккал: "
    ++ formatFixed3 m.calories ++ "."

/-- The Training class hierarchy as a closed sum: the base class itself
(instantiable in Python) and its three subclasses, each carrying the
fields its constructor assigns. -/
inductive Training where
  | base (action : ℚ) (duration : ℚ) (weight : ℚ)
  | running (action : ℚ) (duration : ℚ) (weight : ℚ)
  | sportsWalking (action : ℚ) (duration : ℚ) (weight : ℚ) (height : ℚ)
  | swimming (action : ℚ) (duration : ℚ) (weight : ℚ)
      (length_pool : ℚ) (count_pool : ℚ)
deriving DecidableEq

def Training.LEN_STEP : ℚ := 0.65

def Training.M_IN_KM : ℚ := 1000

def Training.HOUR_IN_MIN : ℚ := 60

def Running.CALORIES_MEAN_SPEED_MULTIPLIER : ℚ := 18

def Running.CALORIES_MEAN_SPEED_SHIFT : ℚ := 1.79

def SportsWalking.KM_PER_H_IN_M_PER_S : ℚ := 0.278

def SportsWalking.FIRST_COEFFICIENT : ℚ := 0.035

def SportsWalking.SECOND_COEFFICIENT : ℚ := 0.029

def SportsWalking.SM_IN_M : ℚ := 100

def Swimming.LEN_STEP : ℚ := 1.38

def Swimming.FIRST_COEFFICIENT : ℚ := 1.1

def Swimming.SECOND_COEFFICIENT : ℚ := 2

def Training.action : Training → ℚ
  | .base a _ _ => a
  | .running a _ _ => a
  | .sportsWalking a _ _ _ => a
  | .swimming a _ _ _ _ => a

def Training.duration : Training → ℚ
  | .base _ d _ => d
  | .running _ d _ => d
  | .sportsWalking _ d _ _ => d
  | .swimming _ d _ _ _ => d

def Training.weight : Training → ℚ
  | .base _ _ w => w
  | .running _ _ w => w
  | .sportsWalking _ _ w _ => w
  | .swimming _ _ w _ _ => w

/-- The LEN_STEP constant seen through dynamic dispatch: Swimming
overrides the class attribute, the other classes inherit it. -/
def Training.len_step : Training → ℚ
  | .swimming _ _ _ _ _ => Swimming.LEN_STEP
  | _ => Training.LEN_STEP

/-- The Python class name, as used by show_training_info. -/
def Training.class_name : Training → String
  | .base _ _ _ => "Training"
  | .running _ _ _ => "Running"
  | .sportsWalking _ _ _ _ => "SportsWalking"
  | .swimming _ _ _ _ _ => "Swimming"

/-- Training.get_distance: action * LEN_STEP / M_IN_KM (the dispatched
LEN_STEP). Total: no division by a field. -/
def Training.get_distance (t : Training) : ℚ :=
  t.action * t.len_step / Training.M_IN_KM

/-- Training.get_mean_speed: get_distance() / duration for the base class
and the two classes that inherit it; Swimming overrides it with
length_pool * count_pool / M_IN_KM / duration. The division by the
duration field raises ZeroDivisionError when duration is zero. -/
def Training.get_mean_speed (t : Training) : Except PyError ℚ :=
  match t with
  | .swimming _ duration _ length_pool count_pool =>
      if duration = 0 then .error .zeroDivisionError
      else .ok (length_pool * count_pool / Training.M_IN_KM / duration)
  | _ =>
      if t.duration = 0 then .error .zeroDivisionError
      else .ok (t.get_distance / t.duration)

/-- Training.get_spent_calories and its three overrides. The base class
raises NotImplementedError; each override first computes the mean speed
(propagating ZeroDivisionError), and SportsWalking additionally divides
by height_in_m, raising ZeroDivisionError when height is zero. -/
def Training.get_spent_calories : Training → Except PyError ℚ
  | .base _ _ _ => .error (.notImplementedError "Нужно переопределить метод")
  | .running a duration weight =>
      (Training.get_mean_speed (.running a duration weight)).map (fun ms =>
        let duration_in_m : ℚ := duration * Training.HOUR_IN_MIN
        (Running.CALORIES_MEAN_SPEED_MULTIPLIER * ms
            + Running.CALORIES_MEAN_SPEED_SHIFT)
          * weight / Training.M_IN_KM * duration_in_m)
  | .sportsWalking a duration weight height =>
      (Training.get_mean_speed (.sportsWalking a duration weight height)).bind
        (fun ms =>
          let mean_speed_in_mPs : ℚ := ms * SportsWalking.KM_PER_H_IN_M_PER_S
          let height_in_m : ℚ := height / SportsWalking.SM_IN_M
          let duration_in_m : ℚ := duration * Training.HOUR_IN_MIN
          if height_in_m = 0 then .error .zeroDivisionError
          else .ok ((SportsWalking.FIRST_COEFFICIENT * weight
                        + (mean_speed_in_mPs ^ 2 / height_in_m)
                          * SportsWalking.SECOND_COEFFICIENT * weight)
                      * duration_in_m))
  | .swimming a duration weight length_pool count_pool =>
      (Training.get_mean_speed
          (.swimming a duration weight length_pool count_pool)).map (fun ms =>
        (ms + Swimming.FIRST_COEFFICIENT) * Swimming.SECOND_COEFFICIENT
          * weight * duration)

/-- Training.show_training_info: build the InfoMessage record from the
class name, the duration and the three derived metrics, propagating any
error the computations raise. -/
def Training.show_training_info (t : Training) : Except PyError InfoMessage := do
  let speed ← t.get_mean_speed
  let calories ← t.get_spent_calories
  .ok { training_type := t.class_name
        duration := t.duration
        distance := t.get_distance
        speed := speed
        calories := calories }

/-- The Running constructor called with a positional argument list:
succeeds exactly on three arguments (action, duration, weight). -/
def Running.construct : List ℚ → Option Training
  | [action, duration, weight] => some (.running action duration weight)
  | _ => none

/-- The SportsWalking constructor called with a positional argument list:
succeeds exactly on four arguments. -/
def SportsWalking.construct : List ℚ → Option Training
  | [action, duration, weight, height] =>
      some (.sportsWalking action duration weight height)
  | _ => none

/-- The Swimming constructor called with a positional argument list:
succeeds exactly on five arguments. -/
def Swimming.construct : List ℚ → Option Training
  | [action, duration, weight, length_pool, count_pool] =>
      some (.swimming action duration weight length_pool count_pool)
  | _ => none

/-- The WORKOUT_NAMES dispatch mapping from type code to constructor. -/
def WORKOUT_NAMES (workout_type : String) :
    Option (List ℚ → Option Training) :=
  if workout_type = "SWM" then some Swimming.construct
  else if workout_type = "RUN" then some Running.construct
  else if workout_type = "WLK" then some SportsWalking.construct
  else none

/-- read_package: look the code up in WORKOUT_NAMES and call the
constructor on the unpacked data. A failed lookup raises KeyError,
re-raised with the fixed message; an arity mismatch inside the
constructor call raises TypeError, which the except-KeyError handler
does not catch, so it propagates unchanged. -/
def read_package (workout_type : String) (data : List ℚ) :
    Except PyError Training :=
  match WORKOUT_NAMES workout_type with
  | some ctor =>
      match ctor data with
      | some t => .ok t
      | none => .error .typeError
  | none => .error (.keyError "Такой тренеровки нет")

/-- True exactly when the result is a raised KeyError. -/
def isKeyError : Except PyError Training → Bool
  | .error (.keyError _) => true
  | _ => false

/-- A string that ends in a dot followed by exactly three digit
characters after its last non-fraction part. -/
def threeDecimals (s : String) : Prop :=
  ∃ pre c1 c2 c3, s = pre ++ "." ++ String.mk [c1, c2, c3]
    ∧ c1.isDigit = true ∧ c2.isDigit = true ∧ c3.isDigit = true

/-- Replace the action count of a workout, leaving every other field
fixed: the variation considered by the monotonicity property. -/
def Training.withAction : Training → ℚ → Training
  | .base _ d w, a => .base a d w
  | .running _ d w, a => .running a d w
  | .sportsWalking _ d w h, a => .sportsWalking a d w h
  | .swimming _ d w L n, a => .swimming a d w L n

/-- Claim C1: for every Running workout with action count a, nonzero
duration d and weight w, get_spent_calories returns
(18 * meanSpeed + 1.79) * w / 1000 * (d * 60) with
meanSpeed = (a * 0.65 / 1000) / d. -/
theorem running_calories_formula (a d w : ℚ) (h : d ≠ 0) :
    Training.get_spent_calories (.running a d w)
      = .ok ((18 * (a * 0.65 / 1000 / d) + 1.79) * w / 1000 * (d * 60)) := by
  simp [Training.get_spent_calories, Training.get_mean_speed,
    Training.get_distance, Training.action, Training.duration,
    Training.len_step, Training.LEN_STEP, Training.M_IN_KM,
    Training.HOUR_IN_MIN, Running.CALORIES_MEAN_SPEED_MULTIPLIER,
    Running.CALORIES_MEAN_SPEED_SHIFT, Except.map, h]

/-- Claim C1 witness: the section-8 Running vector action=15000,
duration=1, weight=75 has distance 9.75 km and calories
(18 * 9.75 + 1.79) * 75 / 1000 * 60. -/
theorem running_calories_formula_witness :
    (1 : ℚ) ≠ 0
      ∧ Training.get_spent_calories (.running 15000 1 75)
          = .ok ((18 * 9.75 + 1.79) * 75 / 1000 * 60)
      ∧ Training.get_distance (.running 15000 1 75) = 9.75 := by
  refine ⟨by norm_num, ?_, by norm_num [Training.get_distance,
    Training.action, Training.len_step, Training.LEN_STEP, Training.M_IN_KM]⟩
  rw [running_calories_formula 15000 1 75 (by norm_num)]
  norm_num

/-- Claim C2: for every Swimming workout with pool length L, lap count n,
nonzero duration d and weight w, get_mean_speed returns
L * n / 1000 / d and get_spent_calories returns
(meanSpeed + 1.1) * 2 * w * d. -/
theorem swimming_speed_and_calories (a d w L n : ℚ) (h : d ≠ 0) :
    Training.get_mean_speed (.swimming a d w L n) = .ok (L * n / 1000 / d)
      ∧ Training.get_spent_calories (.swimming a d w L n)
          = .ok ((L * n / 1000 / d + 1.1) * 2 * w * d) := by
  constructor
  · simp [Training.get_mean_speed, Training.M_IN_KM, h]
  · simp [Training.get_spent_calories, Training.get_mean_speed,
      Training.M_IN_KM, Swimming.FIRST_COEFFICIENT,
      Swimming.SECOND_COEFFICIENT, Except.map, h]

/-- Claim C2 witness: the section-8 Swimming vector action=720,
duration=1, weight=80, length_pool=25, count_pool=40 has mean speed
1.0 km/h and calories (1.0 + 1.1) * 2 * 80 * 1. -/
theorem swimming_speed_and_calories_witness :
    (1 : ℚ) ≠ 0
      ∧ Training.get_mean_speed (.swimming 720 1 80 25 40) = .ok 1
      ∧ Training.get_spent_calories (.swimming 720 1 80 25 40)
          = .ok ((1 + 1.1) * 2 * 80 * 1) := by
  refine ⟨by norm_num, ?_, ?_⟩
  · rw [(swimming_speed_and_calories 720 1 80 25 40 (by norm_num)).1]
    norm_num
  · rw [(swimming_speed_and_calories 720 1 80 25 40 (by norm_num)).2]
    norm_num

/-- Claim C3: for every SportsWalking workout with action count a,
nonzero duration d, weight w and nonzero height h, get_spent_calories
returns (0.035 * w + ((meanSpeed * 0.278)^2 / (h / 100)) * 0.029 * w)
* (d * 60) with meanSpeed = (a * 0.65 / 1000) / d. -/
theorem sports_walking_calories_formula (a d w h : ℚ)
    (hd : d ≠ 0) (hh : h ≠ 0) :
    Training.get_spent_calories (.sportsWalking a d w h)
      = .ok ((0.035 * w
            + ((a * 0.65 / 1000 / d * 0.278) ^ 2 / (h / 100)) * 0.029 * w)
          * (d * 60)) := by
  have hh100 : h / SportsWalking.SM_IN_M ≠ 0 := by
    simp [SportsWalking.SM_IN_M, hh]
  simp [Training.get_spent_calories, Training.get_mean_speed,
    Training.get_distance, Training.action, Training.duration,
    Training.len_step, Training.LEN_STEP, Training.M_IN_KM,
    Training.HOUR_IN_MIN, SportsWalking.KM_PER_H_IN_M_PER_S,
    SportsWalking.FIRST_COEFFICIENT, SportsWalking.SECOND_COEFFICIENT,
    SportsWalking.SM_IN_M, Except.bind, hd, hh]

/-- Claim C3 witness: the section-8 SportsWalking vector action=9000,
duration=1, weight=75, height=180 has distance 5.85 km, mean speed
5.85 km/h, and the stated calorie value. -/
theorem sports_walking_calories_formula_witness :
    (1 : ℚ) ≠ 0 ∧ (180 : ℚ) ≠ 0
      ∧ Training.get_spent_calories (.sportsWalking 9000 1 75 180)
          = .ok ((0.035 * 75 + ((5.85 * 0.278) ^ 2 / 1.8) * 0.029 * 75) * 60)
      ∧ Training.get_distance (.sportsWalking 9000 1 75 180) = 5.85
      ∧ Training.get_mean_speed (.sportsWalking 9000 1 75 180) = .ok 5.85 := by
  refine ⟨by norm_num, by norm_num, ?_, ?_, ?_⟩
  · rw [sports_walking_calories_formula 9000 1 75 180 (by norm_num) (by norm_num)]
    norm_num
  · norm_num [Training.get_distance, Training.action, Training.len_step,
      Training.LEN_STEP, Training.M_IN_KM]
  · simp [Training.get_mean_speed, Training.get_distance, Training.action,
      Training.duration, Training.len_step, Training.LEN_STEP,
      Training.M_IN_KM]
    norm_num

/-- Claim C4: for every type code outside the mapping, read_package
raises the KeyError and returns no workout; for each code in the mapping
it constructs the corresponding variant, binding the arguments
positionally. -/
theorem read_package_dispatch :
    (∀ code data, code ≠ "SWM" → code ≠ "RUN" → code ≠ "WLK" →
        read_package code data = .error (.keyError "Такой тренеровки нет"))
      ∧ (∀ a d w, read_package "RUN" [a, d, w] = .ok (.running a d w))
      ∧ (∀ a d w h, read_package "WLK" [a, d, w, h]
          = .ok (.sportsWalking a d w h))
      ∧ (∀ a d w L n, read_package "SWM" [a, d, w, L, n]
          = .ok (.swimming a d w L n)) := by
  refine ⟨fun code data h1 h2 h3 => ?_, fun a d w => ?_,
    fun a d w h => ?_, fun a d w L n => ?_⟩
  · simp [read_package, WORKOUT_NAMES, h1, h2, h3]
  · simp [read_package, WORKOUT_NAMES, Running.construct]
  · simp [read_package, WORKOUT_NAMES, SportsWalking.construct]
  · simp [read_package, WORKOUT_NAMES, Swimming.construct]

/-- Claim C4 witness: the unknown code XYZ raises the KeyError, and the
RUN code with three arguments builds the Running variant. -/
theorem read_package_dispatch_witness :
    read_package "XYZ" [] = .error (.keyError "Такой тренеровки нет")
      ∧ read_package "RUN" [15000, 1, 75] = .ok (.running 15000 1 75) :=
  ⟨read_package_dispatch.1 "XYZ" [] (by decide) (by decide) (by decide),
    read_package_dispatch.2.1 15000 1 75⟩

/-- Claim C5: read_package raises KeyError exactly when the code is
absent from the mapping, and for a known code with a wrong-length
argument list it fails with the distinct TypeError, which is not
specially handled. -/
theorem read_package_arity_errors :
    (∀ code data, isKeyError (read_package code data) = true
        ↔ WORKOUT_NAMES code = none)
      ∧ (∀ data, data.length ≠ 3 →
          read_package "RUN" data = .error .typeError)
      ∧ (∀ data, data.length ≠ 4 →
          read_package "WLK" data = .error .typeError)
      ∧ (∀ data, data.length ≠ 5 →
          read_package "SWM" data = .error .typeError) := by
  refine ⟨fun code data => ?_, fun data h => ?_, fun data h => ?_,
    fun data h => ?_⟩
  · unfold read_package
    cases hW : WORKOUT_NAMES code with
    | none => simp [isKeyError]
    | some ctor =>
        cases hC : ctor data with
        | none => simp [isKeyError, hW, hC]
        | some t => simp [isKeyError, hW, hC]
  · have hR : WORKOUT_NAMES "RUN" = some Running.construct := by
      simp [WORKOUT_NAMES]
    have hC : Running.construct data = none := by
      match data with
      | [] => rfl
      | [_] => rfl
      | [_, _] => rfl
      | [_, _, _] => simp at h
      | _ :: _ :: _ :: _ :: _ => rfl
    simp [read_package, hR, hC]
  · have hR : WORKOUT_NAMES "WLK" = some SportsWalking.construct := by
      simp [WORKOUT_NAMES]
    have hC : SportsWalking.construct data = none := by
      match data with
      | [] => rfl
      | [_] => rfl
      | [_, _] => rfl
      | [_, _, _] => rfl
      | [_, _, _, _] => simp at h
      | _ :: _ :: _ :: _ :: _ :: _ => rfl
    simp [read_package, hR, hC]
  · have hR : WORKOUT_NAMES "SWM" = some Swimming.construct := by
      simp [WORKOUT_NAMES]
    have hC : Swimming.construct data = none := by
      match data with
      | [] => rfl
      | [_] => rfl
      | [_, _] => rfl
      | [_, _, _] => rfl
      | [_, _, _, _] => rfl
      | [_, _, _, _, _] => simp at h
      | _ :: _ :: _ :: _ :: _ :: _ :: _ => rfl
    simp [read_package, hR, hC]

/-- Claim C5 witness: RUN with an empty argument list fails with
TypeError, not KeyError, while the unknown code XYZ is exactly a
KeyError. -/
theorem read_package_arity_errors_witness :
    read_package "RUN" [] = .error .typeError
      ∧ (isKeyError (read_package "XYZ" []) = true
          ↔ WORKOUT_NAMES "XYZ" = none) :=
  ⟨read_package_arity_errors.2.1 [] (by decide),
    read_package_arity_errors.1 "XYZ" []⟩

/-- Claim C6: get_spent_calories on a base Training instance always
raises NotImplementedError and never returns a value. -/
theorem base_calories_not_implemented (a d w : ℚ) :
    Training.get_spent_calories (.base a d w)
      = .error (.notImplementedError "Нужно переопределить метод") := by
  rfl

theorem digitChar_isDigit (n : ℕ) (h : n < 10) :
    (digitChar n).isDigit = true := by
  interval_cases n <;> decide

theorem formatFixed3_threeDecimals (q : ℚ) : threeDecimals (formatFixed3 q) := by
  refine ⟨(if roundHalfEven (q * 1000) < 0 then "-" else "")
      ++ toString ((roundHalfEven (q * 1000)).natAbs / 1000),
    digitChar ((roundHalfEven (q * 1000)).natAbs % 1000 / 100),
    digitChar ((roundHalfEven (q * 1000)).natAbs % 1000 / 10 % 10),
    digitChar ((roundHalfEven (q * 1000)).natAbs % 1000 % 10), ?_, ?_, ?_, ?_⟩
  · simp [formatFixed3, frac3String, String.append_assoc]
  · exact digitChar_isDigit _ (by omega)
  · exact digitChar_isDigit _ (Nat.mod_lt _ (by norm_num))
  · exact digitChar_isDigit _ (Nat.mod_lt _ (by norm_num))

theorem roundHalfEven_thousand : roundHalfEven (1 * 1000) = 1000 := by
  norm_num [roundHalfEven]

/-- Claim C7: get_message renders the fixed template, with each of the
four numeric fields formatted to exactly three decimal places whatever
the input precision; in particular duration 1 renders as 1.000. As a
plain function of the record it has no side effects. -/
theorem get_message_template_three_decimals (m : InfoMessage) :
    m.get_message
        = "Тип тренировки: " ++ m.training_type ++ "; Длительность: "
            ++ formatFixed3 m.duration ++ " ч.; Дистанция: "
            ++ formatFixed3 m.distance ++ " км; Ср. скорость: "
            ++ formatFixed3 m.speed ++ " км/ч; Потрачено ккал: "
            ++ formatFixed3 m.calories ++ "."
      ∧ threeDecimals (formatFixed3 m.duration)
      ∧ threeDecimals (formatFixed3 m.distance)
      ∧ threeDecimals (formatFixed3 m.speed)
      ∧ threeDecimals (formatFixed3 m.calories)
      ∧ formatFixed3 1 = "1.000" := by
  refine ⟨rfl, formatFixed3_threeDecimals _, formatFixed3_threeDecimals _,
    formatFixed3_threeDecimals _, formatFixed3_threeDecimals _, ?_⟩
  rw [formatFixed3, roundHalfEven_thousand]
  decide

/-- Claim C8: Swimming get_mean_speed ignores the base distance-based
formula: on the section-8 vector it returns 1 km/h while
distance() / duration, with the swimming step length 1.38, is 0.9936. -/
theorem swimming_speed_ignores_distance :
    Training.get_mean_speed (.swimming 720 1 80 25 40)
        ≠ .ok (Training.get_distance (.swimming 720 1 80 25 40)
            / Training.duration (.swimming 720 1 80 25 40))
      ∧ Training.get_mean_speed (.swimming 720 1 80 25 40) = .ok 1
      ∧ Training.get_distance (.swimming 720 1 80 25 40) = 0.9936 := by
  have hdist : Training.get_distance (.swimming 720 1 80 25 40) = 0.9936 := by
    norm_num [Training.get_distance, Training.action, Training.len_step,
      Swimming.LEN_STEP, Training.M_IN_KM]
  have hspeed : Training.get_mean_speed (.swimming 720 1 80 25 40) = .ok 1 := by
    simp [Training.get_mean_speed, Training.M_IN_KM]
    norm_num
  refine ⟨?_, hspeed, hdist⟩
  rw [hspeed, hdist]
  simp [Training.duration]
  norm_num

/-- Claim C9: for every workout variant, with all other fields fixed,
get_distance is strictly increasing in the action count. -/
theorem distance_monotone_in_action (t : Training) (a1 a2 : ℚ)
    (h : a1 < a2) :
    (t.withAction a1).get_distance < (t.withAction a2).get_distance := by
  cases t <;>
    simp only [Training.withAction, Training.get_distance, Training.action,
      Training.len_step, Training.LEN_STEP, Swimming.LEN_STEP,
      Training.M_IN_KM] <;>
    linarith

/-- Claim C9 witness: for the Running variant with duration 1 and
weight 70, raising the action count from 3 to 5 strictly increases the
distance. -/
theorem distance_monotone_in_action_witness :
    ((Training.running 0 1 70).withAction 3).get_distance
      < ((Training.running 0 1 70).withAction 5).get_distance :=
  distance_monotone_in_action (.running 0 1 70) 3 5 (by norm_num)

/-- Claim C10: get_mean_speed divides by the duration field with no
guard, for every variant: it returns a value exactly when the duration
is nonzero, and raises ZeroDivisionError exactly when it is zero. -/
theorem mean_speed_defined_iff_duration_nonzero (t : Training) :
    ((∃ v, t.get_mean_speed = .ok v) ↔ t.duration ≠ 0)
      ∧ (t.get_mean_speed = .error .zeroDivisionError ↔ t.duration = 0) := by
  cases t <;>
    simp only [Training.get_mean_speed, Training.duration] <;>
    split_ifs with h <;> simp [h]

end FitnessTracker
